import Mathlib

/-!
Verification of the constrained-dynamics core of the rbdl-orb repository.

The development shallowly embeds the code of `src/Model.cc` and the
inline code of `include/rbdl/Constraints.h`.  Parts of the repository whose
implementation files are not present (notably `Constraints.cc`) are modelled
from the specification; each such definition carries a doc comment starting
with `Modelled from the spec:`.

Machine floating-point numbers are modelled by `ℚ`, `unsigned int` by `Nat`
(with the explicit sentinel `UINT_MAX`), `std::vector`/`VectorNd` by `List`,
and Eigen dense matrices by `Matrix` over `ℚ`.
-/

namespace RigidBodyDynamics

/-- A 3-dimensional vector (`Math::Vector3d`). -/
def Vector3 : Type := Fin 3 → ℚ

instance : Zero Vector3 := ⟨fun _ => 0⟩

instance : DecidableEq Vector3 := inferInstanceAs (DecidableEq (Fin 3 → ℚ))

/-- A 6-dimensional spatial vector (`Math::SpatialVector`). -/
def SpatialVec : Type := Fin 6 → ℚ

instance : Zero SpatialVec := ⟨fun _ => 0⟩

instance : DecidableEq SpatialVec := inferInstanceAs (DecidableEq (Fin 6 → ℚ))

/-- A spatial transform (`Math::SpatialTransform`): rotation `E` and
translation `r`.  The default constructor is the identity transform. -/
structure SpatialTransform where
  E : Matrix (Fin 3) (Fin 3) ℚ
  r : Vector3
deriving DecidableEq

/-- The default-constructed `SpatialTransform()`: identity rotation and zero
translation. -/
def SpatialTransform.id : SpatialTransform := ⟨1, 0⟩

/-- The transform `Xtrans(v)` used in `Model.cc`: a pure translation. -/
def Xtrans (v : Vector3) : SpatialTransform := ⟨1, v⟩

/-- Joint types used in `src/Model.cc` (the full enum lives in the external
`Joint.h`). -/
inductive JointType where
  | JointTypeUndefined
  | JointTypeRevolute
  | JointTypePrismatic
deriving DecidableEq

/-- A `Joint` as constructed in `src/Model.cc`: a joint type and a
3-dimensional joint axis (the external `Joint.h` constructor stores the axis;
its lifting to a spatial axis is out-of-scope spatial algebra). -/
structure Joint where
  mJointType : JointType
  mJointAxis : Vector3
deriving DecidableEq

/-- The default-constructed `Joint()` (undefined type). -/
def Joint.default : Joint := ⟨.JointTypeUndefined, 0⟩

/-- A `Body` as constructed in `src/Model.cc` via `Body(mass, com, gyration)`;
the derived spatial inertia is out-of-scope spatial algebra and not kept. -/
structure Body where
  mMass : ℚ
  mCenterOfMass : Vector3
  mGyrationRadii : Vector3
deriving DecidableEq

/-- The default-constructed `Body()` used for the root body. -/
def Body.default : Body := ⟨0, 0, 0⟩

/-- The zero-mass, zero-inertia body `Body (0., Vector3d (0,0,0),
Vector3d (0,0,0))` used for the virtual floating-base bodies. -/
def Body.zeroBody : Body := ⟨0, 0, 0⟩

/-- `std::numeric_limits<unsigned int>::max()`. -/
def UINT_MAX : Nat := 4294967295

/-- The rigid-body `Model` of `Model.h`/`Model.cc`, restricted to the fields
that `src/Model.cc` manipulates.  `VectorNd` state vectors are kept as lists
of rationals (only their lengths and zero-initialisation matter here); the
dynamic scratch fields holding spatial inertia (`IA`, `Ic`) are omitted as
out-of-scope spatial algebra. -/
structure Model where
  experimental_floating_base : Bool
  lambda : List Nat
  mu : List (List Nat)
  dof_count : Nat
  gravity : Vector3
  q : List ℚ
  qdot : List ℚ
  qddot : List ℚ
  tau : List ℚ
  v : List SpatialVec
  a : List SpatialVec
  mJoints : List Joint
  S : List Vector3
  X_T : List SpatialTransform
  c : List SpatialVec
  pA : List SpatialVec
  U : List SpatialVec
  u : List ℚ
  d : List ℚ
  f : List SpatialVec
  X_lambda : List SpatialTransform
  X_base : List SpatialTransform
  mBodies : List Body
  mBodyNames : List String
deriving DecidableEq

/-- `Model::Init` from `src/Model.cc`: the freshly initialised model with the
root body at index 0. -/
def Model.Init : Model :=
  { experimental_floating_base := false
    lambda := [0]
    mu := [[]]
    dof_count := 0
    gravity := fun i => if i = 1 then -981/100 else 0
    q := List.replicate 1 0
    qdot := List.replicate 1 0
    qddot := List.replicate 1 0
    tau := List.replicate 1 0
    v := [0]
    a := [0]
    mJoints := [Joint.default]
    S := [0]
    X_T := [SpatialTransform.id]
    c := [0]
    pA := [0]
    U := [0]
    u := List.replicate 1 0
    d := List.replicate 1 0
    f := [0]
    X_lambda := [SpatialTransform.id]
    X_base := [SpatialTransform.id]
    mBodies := [Body.default]
    mBodyNames := ["ROOT"] }

/-- `Model::AddBody` from `src/Model.cc`, translated statement by statement.
`mu.at(parent_id).push_back(q.size())` happens before `dof_count` is
incremented, so the value appended to `mu[parent_id]` is the pre-call
`q.size()`.  The function returns the updated model together with the
returned index `q.size() - 1` (evaluated after the resize). -/
def Model.AddBody (m : Model) (parent_id : Nat)
    (joint_frame : SpatialTransform) (joint : Joint) (body : Body)
    (body_name : String) : Model × Nat :=
  let lambda' := m.lambda ++ [parent_id]
  let mu₁ := m.mu ++ [[]]
  let mu' := mu₁.set parent_id ((mu₁.getD parent_id []) ++ [m.q.length])
  let dof' := m.dof_count + 1
  let m' : Model :=
    { experimental_floating_base := m.experimental_floating_base
      lambda := lambda'
      mu := mu'
      dof_count := dof'
      gravity := m.gravity
      q := List.replicate (dof' + 1) 0
      qdot := List.replicate (dof' + 1) 0
      qddot := List.replicate (dof' + 1) 0
      tau := List.replicate (dof' + 1) 0
      v := m.v ++ [0]
      a := m.a ++ [0]
      mJoints := m.mJoints ++ [joint]
      S := m.S ++ [joint.mJointAxis]
      X_T := m.X_T ++ [joint_frame]
      c := m.c ++ [0]
      pA := m.pA ++ [0]
      U := m.U ++ [0]
      u := List.replicate (dof' + 1) 0
      d := List.replicate (dof' + 1) 0
      f := m.f ++ [0]
      X_lambda := m.X_lambda ++ [SpatialTransform.id]
      X_base := m.X_base ++ [SpatialTransform.id]
      mBodies := m.mBodies ++ [body]
      mBodyNames := m.mBodyNames ++ [body_name] }
  (m', dof' + 1 - 1)

/-- `Model::SetFloatingBaseBody` from `src/Model.cc`, non-experimental branch
(the experimental branch rewrites body 0 instead).  Adds the six virtual
bodies in the order tx ty tz rz ry rx and attaches `body` at the last
(revolute-x) joint. -/
def Model.SetFloatingBaseBody (m : Model) (body : Body) : Model × Nat :=
  if m.experimental_floating_base then
    let m' := { m with
      dof_count := m.dof_count + 6
      q := List.replicate (m.dof_count + 6 + 1) 0
      qdot := List.replicate (m.dof_count + 6 + 1) 0
      qddot := List.replicate (m.dof_count + 6 + 1) 0
      tau := List.replicate (m.dof_count + 6 + 1) 0
      lambda := m.lambda.set 0 UINT_MAX
      X_lambda := m.X_lambda.set 0 SpatialTransform.id
      X_base := m.X_base.set 0 SpatialTransform.id
      mBodies := m.mBodies.set 0 body }
    (m', 0)
  else
    let joint_tx : Joint := ⟨.JointTypePrismatic, fun i => if i = 0 then 1 else 0⟩
    let r1 := m.AddBody 0 (Xtrans 0) joint_tx Body.zeroBody ""
    let joint_ty : Joint := ⟨.JointTypePrismatic, fun i => if i = 1 then 1 else 0⟩
    let r2 := r1.1.AddBody r1.2 (Xtrans 0) joint_ty Body.zeroBody ""
    let joint_tz : Joint := ⟨.JointTypePrismatic, fun i => if i = 2 then 1 else 0⟩
    let r3 := r2.1.AddBody r2.2 (Xtrans 0) joint_tz Body.zeroBody ""
    let joint_rz : Joint := ⟨.JointTypeRevolute, fun i => if i = 2 then 1 else 0⟩
    let r4 := r3.1.AddBody r3.2 (Xtrans 0) joint_rz Body.zeroBody ""
    let joint_ry : Joint := ⟨.JointTypeRevolute, fun i => if i = 1 then 1 else 0⟩
    let r5 := r4.1.AddBody r4.2 (Xtrans 0) joint_ry Body.zeroBody ""
    let joint_rx : Joint := ⟨.JointTypeRevolute, fun i => if i = 0 then 1 else 0⟩
    let r6 := r5.1.AddBody r5.2 (Xtrans 0) joint_rx body ""
    (r6.1, r6.2)

/-- Helper for `Model::GetBodyId`: scan the body-name list from index `i`
upwards, returning the index of the first match. -/
def getBodyIdAux (id : String) : Nat → List String → Nat
  | _, [] => UINT_MAX
  | i, n :: rest => if n = id then i else getBodyIdAux id (i + 1) rest

/-- `Model::GetBodyId` from `src/Model.cc`: linear scan from index 0,
returning `UINT_MAX` when no body carries the name.  It is a pure function
of the model (the C++ method does not modify any member). -/
def Model.GetBodyId (m : Model) (id : String) : Nat :=
  getBodyIdAux id 0 m.mBodyNames

/-- Size invariants maintained by `Model::Init`/`Model::AddBody`: the state
vectors and the per-body arrays always hold `dof_count + 1` entries. -/
def Model.wf (m : Model) : Prop :=
  m.q.length = m.dof_count + 1 ∧ m.lambda.length = m.dof_count + 1 ∧
    m.mu.length = m.dof_count + 1 ∧ m.mBodies.length = m.dof_count + 1

lemma Model.Init_wf : Model.Init.wf := ⟨rfl, rfl, rfl, rfl⟩

lemma Model.AddBody_wf (m : Model) (p : Nat) (jf : SpatialTransform)
    (j : Joint) (b : Body) (nm : String) (h : m.wf) :
    (m.AddBody p jf j b nm).1.wf := by
  obtain ⟨h1, h2, h3, h4⟩ := h
  refine ⟨?_, ?_, ?_, ?_⟩ <;>
    simp [Model.AddBody, h1, h2, h3, h4]

/-- Every non-root body's parent index is strictly smaller than the body's
own index. -/
def Model.parentsOk (m : Model) : Prop :=
  ∀ i (h : i < m.lambda.length), 0 < i → m.lambda[i] < i

lemma Model.Init_parentsOk : Model.Init.parentsOk := by
  intro i h h0
  simp [Model.Init] at h
  omega

lemma Model.AddBody_parentsOk (m : Model) (p : Nat) (jf : SpatialTransform)
    (j : Joint) (b : Body) (nm : String)
    (h : m.parentsOk) (hp : p < m.lambda.length) :
    (m.AddBody p jf j b nm).1.parentsOk := by
  intro i hi h0
  simp only [Model.AddBody] at hi ⊢
  rw [List.getElem_append]
  split
  · exact h i (by assumption) h0
  · have hlen : i < m.lambda.length + 1 := by simpa using hi
    have : i = m.lambda.length := by omega
    have hz : i - m.lambda.length = 0 := by omega
    simp only [hz, List.getElem_cons_zero]
    omega

/-- One recorded call to `Model::AddBody`. -/
structure BodyCall where
  parent : Nat
  joint_frame : SpatialTransform
  joint : Joint
  body : Body
  bname : String

/-- Replay a sequence of `AddBody` calls against a model. -/
def Model.addBodies (m : Model) : List BodyCall → Model
  | [] => m
  | cl :: rest =>
      ((m.AddBody cl.parent cl.joint_frame cl.joint cl.body cl.bname).1).addBodies rest

/-- A call sequence is valid when each call's parent id names an
already-added body at the moment of the call (the `assert`/`at` discipline
of `Model::AddBody`). -/
def Model.validCalls (m : Model) : List BodyCall → Bool
  | [] => true
  | cl :: rest =>
      decide (cl.parent < m.lambda.length) &&
        ((m.AddBody cl.parent cl.joint_frame cl.joint cl.body cl.bname).1).validCalls rest

lemma Model.addBodies_wf : ∀ (calls : List BodyCall) (m : Model),
    m.wf → (m.addBodies calls).wf
  | [], _, h => h
  | cl :: rest, m, h =>
      Model.addBodies_wf rest _ (Model.AddBody_wf m cl.parent cl.joint_frame cl.joint cl.body cl.bname h)

lemma Model.addBodies_parentsOk : ∀ (calls : List BodyCall) (m : Model),
    m.parentsOk → m.validCalls calls = true → (m.addBodies calls).parentsOk
  | [], _, h, _ => h
  | cl :: rest, m, h, hv => by
      simp only [Model.validCalls, Bool.and_eq_true, decide_eq_true_eq] at hv
      exact Model.addBodies_parentsOk rest _
        (Model.AddBody_parentsOk m cl.parent cl.joint_frame cl.joint cl.body cl.bname h hv.1)
        hv.2

/-- C8: `Model::AddBody` with a valid parent id increases `dof_count` by
exactly 1, appends the parent to `lambda`, appends the new body's index to
`mu[parent]` while leaving every other `mu` entry (and the existing prefix
of `mu[parent]` and `lambda`) unchanged, and returns the new body's index,
which equals the post-call `dof_count`; consequently any valid sequence of
`AddBody` calls starting from `Model::Init` keeps one degree of freedom per
non-root body (`dof_count + 1 = lambda.size()`) and `lambda[i] < i` for
every non-root index `i`. -/
theorem C8_addBody_invariants
    (m : Model) (p : Nat) (jf : SpatialTransform) (j : Joint) (b : Body)
    (nm : String) (hwf : m.wf) (hp : p < m.lambda.length)
    (calls : List BodyCall) (hvalid : Model.Init.validCalls calls = true) :
    (m.AddBody p jf j b nm).1.dof_count = m.dof_count + 1 ∧
    (m.AddBody p jf j b nm).1.lambda = m.lambda ++ [p] ∧
    (m.AddBody p jf j b nm).1.mu.length = m.mu.length + 1 ∧
    (∀ k, k ≠ p → (m.AddBody p jf j b nm).1.mu[k]? = (m.mu ++ [[]])[k]?) ∧
    (m.AddBody p jf j b nm).1.mu[p]? =
      some ((m.mu.getD p []) ++ [(m.AddBody p jf j b nm).2]) ∧
    (m.AddBody p jf j b nm).2 = (m.AddBody p jf j b nm).1.dof_count ∧
    (Model.Init.addBodies calls).dof_count + 1
      = (Model.Init.addBodies calls).lambda.length ∧
    (Model.Init.addBodies calls).parentsOk := by
  obtain ⟨h1, h2, h3, h4⟩ := hwf
  have hpmu : p < m.mu.length := by omega
  refine ⟨rfl, rfl, by simp [Model.AddBody], ?_, ?_, rfl, ?_, ?_⟩
  · intro k hk
    simp only [Model.AddBody]
    exact List.getElem?_set_ne (Ne.symm hk)
  · simp only [Model.AddBody]
    rw [List.getElem?_set_self (by simp; omega)]
    have hgetD : (m.mu ++ [[]]).getD p [] = m.mu.getD p [] := by
      simp [List.getD_eq_getElem?_getD, List.getElem?_append_left hpmu]
    rw [hgetD, h1]
    norm_num
  · exact (Model.addBodies_wf calls Model.Init Model.Init_wf).2.1.symm
  · exact Model.addBodies_parentsOk calls Model.Init Model.Init_parentsOk hvalid

/-- Witness for C8 at a concrete call. -/
theorem C8_addBody_invariants_witness :
    (Model.Init.AddBody 0 SpatialTransform.id ⟨.JointTypeRevolute, 0⟩
        Body.default "b1").1.dof_count = 1 ∧
    (Model.Init.AddBody 0 SpatialTransform.id ⟨.JointTypeRevolute, 0⟩
        Body.default "b1").2 = 1 := by
  obtain ⟨hd, -, -, -, -, hr, -, -⟩ :=
    C8_addBody_invariants Model.Init 0 SpatialTransform.id
      ⟨.JointTypeRevolute, 0⟩ Body.default "b1" Model.Init_wf (by decide)
      [⟨0, SpatialTransform.id, ⟨.JointTypeRevolute, 0⟩, Body.default, "b1"⟩]
      (by decide)
  exact ⟨by rw [hd]; rfl, by rw [hr, hd]; rfl⟩


lemma getBodyIdAux_not_found (id : String) : ∀ (l : List String) (i : Nat),
    (∀ j (h : j < l.length), l[j] ≠ id) → getBodyIdAux id i l = UINT_MAX
  | [], _, _ => rfl
  | n :: rest, i, hnone => by
      have h0 : ¬ (n = id) := by
        have := hnone 0 (by simp)
        simpa using this
      simp only [getBodyIdAux, if_neg h0]
      exact getBodyIdAux_not_found id rest (i + 1) (fun j h => by
        have := hnone (j + 1) (by simpa using Nat.succ_lt_succ h)
        simpa using this)

lemma getBodyIdAux_found (id : String) : ∀ (l : List String) (i : Nat)
    (j : Nat) (hj : j < l.length), l[j] = id →
    ∃ k, ∃ hk : k < l.length, getBodyIdAux id i l = i + k ∧ l[k] = id ∧
      ∀ j' (hj' : j' < l.length), l[j'] = id → k ≤ j'
  | [], _, j, hj, _ => absurd hj (by simp)
  | n :: rest, i, j, hj, hmatch => by
      by_cases hn : n = id
      · refine ⟨0, by simp, ?_, by simpa using hn, fun _ _ _ => Nat.zero_le _⟩
        simp [getBodyIdAux, hn]
      · have hj0 : j ≠ 0 := by
          rintro rfl
          exact hn (by simpa using hmatch)
        obtain ⟨j', rfl⟩ : ∃ j'', j = j'' + 1 := ⟨j - 1, by omega⟩
        have hj'r : j' < rest.length := by simpa using hj
        have hm' : rest[j'] = id := by simpa using hmatch
        obtain ⟨k, hk, he, hid, hmin⟩ := getBodyIdAux_found id rest (i + 1) j' hj'r hm'
        refine ⟨k + 1, by simpa using Nat.succ_lt_succ hk, ?_, by simpa using hid, ?_⟩
        · simp only [getBodyIdAux, if_neg hn, he]
          omega
        · intro j2 hj2 hid2
          match j2 with
          | 0 => exact absurd (by simpa using hid2) hn
          | j2 + 1 =>
            have := hmin j2 (by simpa using hj2) (by simpa using hid2)
            omega

/-- C9: `Model::GetBodyId` returns the smallest body index whose stored
name equals the argument, and `UINT_MAX` when no body has that name.  In
this embedding the method is a pure function of the model, matching the
fact that the C++ method mutates nothing. -/
theorem C9_getBodyId (m : Model) (id : String) :
    ((∀ j (h : j < m.mBodyNames.length), m.mBodyNames[j] ≠ id) →
        m.GetBodyId id = UINT_MAX) ∧
    (∀ j (hj : j < m.mBodyNames.length), m.mBodyNames[j] = id →
        ∃ k, ∃ hk : k < m.mBodyNames.length, m.GetBodyId id = k ∧
          m.mBodyNames[k] = id ∧
          ∀ j' (hj' : j' < m.mBodyNames.length), m.mBodyNames[j'] = id →
            k ≤ j') := by
  constructor
  · intro hnone
    exact getBodyIdAux_not_found id m.mBodyNames 0 hnone
  · intro j hj hmatch
    obtain ⟨k, hk, he, hid, hmin⟩ := getBodyIdAux_found id m.mBodyNames 0 j hj hmatch
    have hg : m.GetBodyId id = k := by
      simpa [Model.GetBodyId] using he
    exact ⟨k, hk, hg, hid, hmin⟩

/-- Witness for C9 on the freshly initialised model. -/
theorem C9_getBodyId_witness :
    Model.Init.GetBodyId "nosuch" = UINT_MAX ∧
    Model.Init.GetBodyId "ROOT" = 0 := by
  constructor
  · exact (C9_getBodyId Model.Init "nosuch").1 (by decide)
  · obtain ⟨k, hk, hg, hid, hmin⟩ :=
      (C9_getBodyId Model.Init "ROOT").2 0 (by decide) (by decide)
    have := hmin 0 (by decide) (by decide)
    omega

/-- C10: in non-experimental mode, `Model::SetFloatingBaseBody` adds
exactly six bodies (`dof_count` grows by 6) with joints in the order
prismatic-x, prismatic-y, prismatic-z, revolute-z, revolute-y, revolute-x,
the first five added bodies being massless with zero inertia, the caller's
body attached at the last (revolute-x) joint, and returns the index of the
last added body. -/
theorem C10_setFloatingBaseBody (m : Model) (b : Body)
    (hexp : m.experimental_floating_base = false) (hwf : m.wf) :
    (m.SetFloatingBaseBody b).1.dof_count = m.dof_count + 6 ∧
    (m.SetFloatingBaseBody b).1.mJoints = m.mJoints ++
      [⟨.JointTypePrismatic, fun i => if i = 0 then 1 else 0⟩,
       ⟨.JointTypePrismatic, fun i => if i = 1 then 1 else 0⟩,
       ⟨.JointTypePrismatic, fun i => if i = 2 then 1 else 0⟩,
       ⟨.JointTypeRevolute, fun i => if i = 2 then 1 else 0⟩,
       ⟨.JointTypeRevolute, fun i => if i = 1 then 1 else 0⟩,
       ⟨.JointTypeRevolute, fun i => if i = 0 then 1 else 0⟩] ∧
    (m.SetFloatingBaseBody b).1.mBodies = m.mBodies ++
      [Body.zeroBody, Body.zeroBody, Body.zeroBody, Body.zeroBody,
       Body.zeroBody, b] ∧
    Body.zeroBody.mMass = 0 ∧ Body.zeroBody.mGyrationRadii = 0 ∧
    (m.SetFloatingBaseBody b).2 = m.dof_count + 6 ∧
    (m.SetFloatingBaseBody b).2 = (m.SetFloatingBaseBody b).1.mBodies.length - 1 := by
  obtain ⟨h1, h2, h3, h4⟩ := hwf
  refine ⟨?_, ?_, ?_, rfl, rfl, ?_, ?_⟩ <;>
    simp [Model.SetFloatingBaseBody, Model.AddBody, hexp] <;>
    omega

/-- Witness for C10 on the freshly initialised model. -/
theorem C10_setFloatingBaseBody_witness :
    (Model.Init.SetFloatingBaseBody ⟨1, 0, 0⟩).1.dof_count = 6 ∧
    (Model.Init.SetFloatingBaseBody ⟨1, 0, 0⟩).2 = 6 := by
  obtain ⟨hd, -, -, -, -, hr, -⟩ :=
    C10_setFloatingBaseBody Model.Init ⟨1, 0, 0⟩ rfl Model.Init_wf
  exact ⟨by rw [hd]; rfl, by rw [hr]; rfl⟩

/-- Dense vector workspace (`Math::VectorNd`). -/
abbrev VectorNd := List ℚ

/-- Dense matrix workspace (`Math::MatrixNd`). -/
abbrev MatrixNd := List (List ℚ)

/-- A 6 × 6 spatial matrix (`Math::SpatialMatrix`). -/
abbrev SpatialMatrix := Matrix (Fin 6) (Fin 6) ℚ

/-- The `Math::LinearSolver` selector from the external `rbdl_mathutils.h`
(modelled; only `LinearSolverColPivHouseholderQR` is referenced from the
code in src/). -/
inductive LinearSolver where
  | LinearSolverUnknown
  | LinearSolverPartialPivLU
  | LinearSolverColPivHouseholderQR
  | LinearSolverHouseholderQR
deriving DecidableEq

/-- A user-supplied polymorphic constraint.  The registry only consumes its
declared row count `mConstraintCount`; the virtual computation methods are
the polymorphic contract evaluated through the kinematics oracles. -/
structure CustomConstraint where
  mConstraintCount : Nat

/-- The constraint type tags of `ConstraintSet` (Constraints.h). -/
inductive ConstraintType where
  | ContactConstraint
  | LoopConstraint
  | ConstraintTypeCustom
  | ConstraintTypeLast
deriving DecidableEq

/-- The `ConstraintSet` structure of `include/rbdl/Constraints.h`: the
constraint registry plus solver workspace.  `baumgarteParameters` keeps the
per-row stabilization flag and time constant (the spec's "stabilization flag
+ time-constant pair").  The Eigen decomposition member objects (`GT_qr`,
`GPT_full_qr`) have no value semantics and are not modelled. -/
structure ConstraintSet where
  linear_solver : LinearSolver
  bound : Bool
  constraintType : List ConstraintType
  name : List String
  mContactConstraintIndices : List Nat
  mLoopConstraintIndices : List Nat
  mCustomConstraintIndices : List Nat
  mCustomConstraints : List CustomConstraint
  body : List Nat
  point : List Vector3
  normal : List Vector3
  body_p : List Nat
  body_s : List Nat
  X_p : List SpatialTransform
  X_s : List SpatialTransform
  constraintAxis : List SpatialVec
  baumgarteParameters : List (Bool × ℚ)
  err : VectorNd
  errd : VectorNd
  acceleration : VectorNd
  force : VectorNd
  impulse : VectorNd
  v_plus : VectorNd
  H : MatrixNd
  C : VectorNd
  gamma : VectorNd
  G : MatrixNd
  A : MatrixNd
  b : VectorNd
  x : VectorNd
  S : MatrixNd
  P : MatrixNd
  W : MatrixNd
  Winv : MatrixNd
  u : VectorNd
  v : VectorNd
  F : MatrixNd
  GT : MatrixNd
  g : VectorNd
  Ru : MatrixNd
  py : VectorNd
  pz : VectorNd
  Gi : MatrixNd
  GSpi : MatrixNd
  GSsi : MatrixNd
  GSJ : MatrixNd
  GT_qr_Q : MatrixNd
  GPT : MatrixNd
  Y : MatrixNd
  Z : MatrixNd
  R : MatrixNd
  qddot_y : VectorNd
  qddot_z : VectorNd
  AIdc : MatrixNd
  KIdc : MatrixNd
  bIdc : VectorNd
  xIdc : VectorNd
  vIdc : VectorNd
  wIdc : VectorNd
  K : MatrixNd
  a : VectorNd
  QDDot_t : VectorNd
  QDDot_0 : VectorNd
  f_t : List SpatialVec
  f_ext_constraints : List SpatialVec
  point_accel_0 : List Vector3
  d_pA : List SpatialVec
  d_a : List SpatialVec
  d_u : VectorNd
  d_IA : List SpatialMatrix
  d_U : List SpatialVec
  d_d : VectorNd
  d_multdof3_u : List Vector3

/-- The default constructor `ConstraintSet()` from Constraints.h: it sets
`linear_solver (Math::LinearSolverColPivHouseholderQR)` and `bound (false)`;
every container member is default-constructed empty. -/
def ConstraintSet.init : ConstraintSet :=
  { linear_solver := .LinearSolverColPivHouseholderQR
    bound := false
    constraintType := [], name := [], mContactConstraintIndices := []
    mLoopConstraintIndices := [], mCustomConstraintIndices := []
    mCustomConstraints := [], body := [], point := [], normal := []
    body_p := [], body_s := [], X_p := [], X_s := [], constraintAxis := []
    baumgarteParameters := [], err := [], errd := [], acceleration := []
    force := [], impulse := [], v_plus := [], H := [], C := [], gamma := []
    G := [], A := [], b := [], x := [], S := [], P := [], W := []
    Winv := [], u := [], v := [], F := [], GT := [], g := [], Ru := []
    py := [], pz := [], Gi := [], GSpi := [], GSsi := [], GSJ := []
    GT_qr_Q := [], GPT := [], Y := [], Z := [], R := [], qddot_y := []
    qddot_z := [], AIdc := [], KIdc := [], bIdc := [], xIdc := []
    vIdc := [], wIdc := [], K := [], a := [], QDDot_t := [], QDDot_0 := []
    f_t := [], f_ext_constraints := [], point_accel_0 := [], d_pA := []
    d_a := [], d_u := [], d_IA := [], d_U := [], d_d := []
    d_multdof3_u := [] }

/-- `ConstraintSet::Copy` from Constraints.h: copy-construct and force the
copy's `bound` flag to false. -/
def ConstraintSet.Copy (cs : ConstraintSet) : ConstraintSet :=
  { cs with bound := false }

/-- `ConstraintSet::SetSolver` from Constraints.h. -/
def ConstraintSet.SetSolver (cs : ConstraintSet) (solver : LinearSolver) :
    ConstraintSet :=
  { cs with linear_solver := solver }

/-- `ConstraintSet::size` from Constraints.h: the number of constraints,
implemented as `acceleration.size()`. -/
def ConstraintSet.size (cs : ConstraintSet) : Nat :=
  cs.acceleration.length

/-- Default value of the `enable_stabilization` parameter of
`ConstraintSet::AddLoopConstraint`/`AddCustomConstraint` (Constraints.h
declares `bool enable_stabilization = false`). -/
def loopStabilizationDefault : Bool := false

/-- Default value of the `stabilization_param` (`T_stab`) parameter of
`ConstraintSet::AddLoopConstraint`/`AddCustomConstraint` (Constraints.h
declares `const double stabilization_param = 0.1`). -/
def loopTstabDefault : ℚ := 1/10

/-- Modelled from the spec: `ConstraintSet::AddContactConstraint`
(Constraints.cc is not in src/).  Appends one Contact row holding the body
id, body-local point and world axis, extends every per-row vector by one
entry (the enforced acceleration receiving `normal_acceleration`, contacts
carrying no stabilization), and returns the new row's index. -/
def ConstraintSet.AddContactConstraint (cs : ConstraintSet) (body_id : Nat)
    (body_point : Vector3) (world_normal : Vector3)
    (constraint_name : String) (normal_acceleration : ℚ) :
    ConstraintSet × Nat :=
  let rowIdx := cs.size
  ({ cs with
      constraintType := cs.constraintType ++ [.ContactConstraint]
      name := cs.name ++ [constraint_name]
      mContactConstraintIndices := cs.mContactConstraintIndices ++ [rowIdx]
      body := cs.body ++ [body_id]
      point := cs.point ++ [body_point]
      normal := cs.normal ++ [world_normal]
      baumgarteParameters := cs.baumgarteParameters ++ [(false, 0)]
      err := cs.err ++ [0]
      errd := cs.errd ++ [0]
      acceleration := cs.acceleration ++ [normal_acceleration]
      force := cs.force ++ [0]
      impulse := cs.impulse ++ [0]
      v_plus := cs.v_plus ++ [0] }, rowIdx)

/-- Modelled from the spec: `ConstraintSet::AddLoopConstraint`
(Constraints.cc is not in src/; the parameter defaults
`enable_stabilization = false` and `stabilization_param = 0.1` are in the
Constraints.h declaration).  Appends one Loop row holding the
predecessor/successor ids, the two local transforms, the spatial constraint
axis and the stabilization flag/time-constant pair, extends every per-row
vector by one entry, and returns the new row's index. -/
def ConstraintSet.AddLoopConstraint (cs : ConstraintSet)
    (id_predecessor id_successor : Nat)
    (X_predecessor X_successor : SpatialTransform) (axis : SpatialVec)
    (enable_stabilization : Bool) (stabilization_param : ℚ)
    (constraint_name : String) : ConstraintSet × Nat :=
  let rowIdx := cs.size
  ({ cs with
      constraintType := cs.constraintType ++ [.LoopConstraint]
      name := cs.name ++ [constraint_name]
      mLoopConstraintIndices := cs.mLoopConstraintIndices ++ [rowIdx]
      body_p := cs.body_p ++ [id_predecessor]
      body_s := cs.body_s ++ [id_successor]
      X_p := cs.X_p ++ [X_predecessor]
      X_s := cs.X_s ++ [X_successor]
      constraintAxis := cs.constraintAxis ++ [axis]
      baumgarteParameters :=
        cs.baumgarteParameters ++ [(enable_stabilization, stabilization_param)]
      err := cs.err ++ [0]
      errd := cs.errd ++ [0]
      acceleration := cs.acceleration ++ [0]
      force := cs.force ++ [0]
      impulse := cs.impulse ++ [0]
      v_plus := cs.v_plus ++ [0] }, rowIdx)

/-- Modelled from the spec: `ConstraintSet::AddCustomConstraint`
(Constraints.cc is not in src/).  Appends `mConstraintCount` consecutive
Custom rows for the referenced object, extends every per-row vector by that
many entries, and returns the index of the first appended row. -/
def ConstraintSet.AddCustomConstraint (cs : ConstraintSet)
    (custom_constraint : CustomConstraint) (id_predecessor id_successor : Nat)
    (X_predecessor X_successor : SpatialTransform)
    (enable_stabilization : Bool) (stabilization_param : ℚ)
    (constraint_name : String) : ConstraintSet × Nat :=
  let rowIdx := cs.size
  let rows := custom_constraint.mConstraintCount
  ({ cs with
      constraintType := cs.constraintType ++ List.replicate rows .ConstraintTypeCustom
      name := cs.name ++ List.replicate rows constraint_name
      mCustomConstraintIndices := cs.mCustomConstraintIndices ++ [rowIdx]
      mCustomConstraints := cs.mCustomConstraints ++ [custom_constraint]
      body_p := cs.body_p ++ [id_predecessor]
      body_s := cs.body_s ++ [id_successor]
      X_p := cs.X_p ++ [X_predecessor]
      X_s := cs.X_s ++ [X_successor]
      baumgarteParameters :=
        cs.baumgarteParameters ++
          List.replicate rows (enable_stabilization, stabilization_param)
      err := cs.err ++ List.replicate rows 0
      errd := cs.errd ++ List.replicate rows 0
      acceleration := cs.acceleration ++ List.replicate rows 0
      force := cs.force ++ List.replicate rows 0
      impulse := cs.impulse ++ List.replicate rows 0
      v_plus := cs.v_plus ++ List.replicate rows 0 }, rowIdx)

/-- Modelled from the spec: `ConstraintSet::Bind` (Constraints.cc is not in
src/).  Fails when already bound or when a registered row references an
out-of-range body id; on success it resizes the workspace from the model's
DOF count and the row count, marks the set bound and returns true.  The
per-row vectors are left untouched: the row count is fixed at bind time. -/
def ConstraintSet.Bind (cs : ConstraintSet) (model : Model) :
    ConstraintSet × Bool :=
  if cs.bound then (cs, false)
  else
    let nBodies := model.mBodies.length
    if cs.body.all (fun i => decide (i < nBodies)) &&
        cs.body_p.all (fun i => decide (i < nBodies)) &&
        cs.body_s.all (fun i => decide (i < nBodies)) then
      let n := model.dof_count
      let rc := cs.constraintType.length
      ({ cs with
          bound := true
          H := List.replicate n (List.replicate n 0)
          C := List.replicate n 0
          gamma := List.replicate rc 0
          G := List.replicate rc (List.replicate n 0)
          A := List.replicate (n + rc) (List.replicate (n + rc) 0)
          b := List.replicate (n + rc) 0
          x := List.replicate (n + rc) 0 }, true)
    else (cs, false)

/-- Modelled from the spec: `ConstraintSet::clear` (Constraints.cc is not in
src/): zeroes all per-row numeric fields without removing rows and without
un-binding. -/
def ConstraintSet.clear (cs : ConstraintSet) : ConstraintSet :=
  { cs with
      err := List.replicate cs.err.length 0
      errd := List.replicate cs.errd.length 0
      acceleration := List.replicate cs.acceleration.length 0
      force := List.replicate cs.force.length 0
      impulse := List.replicate cs.impulse.length 0
      v_plus := List.replicate cs.v_plus.length 0 }

/-- C2: `ConstraintSet::Copy` returns a set whose `bound` flag is false
regardless of the receiver's flag, and whose every other field equals the
corresponding field of the receiver (the C++ method copy-constructs and then
forces `bound = false`). -/
theorem C2_copy_resets_bound (cs : ConstraintSet) :
    cs.Copy.bound = false ∧
    cs.Copy.linear_solver = cs.linear_solver ∧
    cs.Copy.constraintType = cs.constraintType ∧
    cs.Copy.name = cs.name ∧
    cs.Copy.mContactConstraintIndices = cs.mContactConstraintIndices ∧
    cs.Copy.mLoopConstraintIndices = cs.mLoopConstraintIndices ∧
    cs.Copy.mCustomConstraintIndices = cs.mCustomConstraintIndices ∧
    cs.Copy.mCustomConstraints = cs.mCustomConstraints ∧
    cs.Copy.body = cs.body ∧
    cs.Copy.point = cs.point ∧
    cs.Copy.normal = cs.normal ∧
    cs.Copy.body_p = cs.body_p ∧
    cs.Copy.body_s = cs.body_s ∧
    cs.Copy.X_p = cs.X_p ∧
    cs.Copy.X_s = cs.X_s ∧
    cs.Copy.constraintAxis = cs.constraintAxis ∧
    cs.Copy.baumgarteParameters = cs.baumgarteParameters ∧
    cs.Copy.err = cs.err ∧
    cs.Copy.errd = cs.errd ∧
    cs.Copy.acceleration = cs.acceleration ∧
    cs.Copy.force = cs.force ∧
    cs.Copy.impulse = cs.impulse ∧
    cs.Copy.v_plus = cs.v_plus ∧
    cs.Copy.H = cs.H ∧
    cs.Copy.C = cs.C ∧
    cs.Copy.gamma = cs.gamma ∧
    cs.Copy.G = cs.G ∧
    cs.Copy.A = cs.A ∧
    cs.Copy.b = cs.b ∧
    cs.Copy.x = cs.x ∧
    cs.Copy.S = cs.S ∧
    cs.Copy.P = cs.P ∧
    cs.Copy.W = cs.W ∧
    cs.Copy.Winv = cs.Winv ∧
    cs.Copy.u = cs.u ∧
    cs.Copy.v = cs.v ∧
    cs.Copy.F = cs.F ∧
    cs.Copy.GT = cs.GT ∧
    cs.Copy.g = cs.g ∧
    cs.Copy.Ru = cs.Ru ∧
    cs.Copy.py = cs.py ∧
    cs.Copy.pz = cs.pz ∧
    cs.Copy.Gi = cs.Gi ∧
    cs.Copy.GSpi = cs.GSpi ∧
    cs.Copy.GSsi = cs.GSsi ∧
    cs.Copy.GSJ = cs.GSJ ∧
    cs.Copy.GT_qr_Q = cs.GT_qr_Q ∧
    cs.Copy.GPT = cs.GPT ∧
    cs.Copy.Y = cs.Y ∧
    cs.Copy.Z = cs.Z ∧
    cs.Copy.R = cs.R ∧
    cs.Copy.qddot_y = cs.qddot_y ∧
    cs.Copy.qddot_z = cs.qddot_z ∧
    cs.Copy.AIdc = cs.AIdc ∧
    cs.Copy.KIdc = cs.KIdc ∧
    cs.Copy.bIdc = cs.bIdc ∧
    cs.Copy.xIdc = cs.xIdc ∧
    cs.Copy.vIdc = cs.vIdc ∧
    cs.Copy.wIdc = cs.wIdc ∧
    cs.Copy.K = cs.K ∧
    cs.Copy.a = cs.a ∧
    cs.Copy.QDDot_t = cs.QDDot_t ∧
    cs.Copy.QDDot_0 = cs.QDDot_0 ∧
    cs.Copy.f_t = cs.f_t ∧
    cs.Copy.f_ext_constraints = cs.f_ext_constraints ∧
    cs.Copy.point_accel_0 = cs.point_accel_0 ∧
    cs.Copy.d_pA = cs.d_pA ∧
    cs.Copy.d_a = cs.d_a ∧
    cs.Copy.d_u = cs.d_u ∧
    cs.Copy.d_IA = cs.d_IA ∧
    cs.Copy.d_U = cs.d_U ∧
    cs.Copy.d_d = cs.d_d ∧
    cs.Copy.d_multdof3_u = cs.d_multdof3_u :=
  ⟨rfl, rfl, rfl, rfl, rfl, rfl, rfl, rfl, rfl, rfl, rfl, rfl, rfl, rfl, rfl, rfl, rfl, rfl, rfl, rfl, rfl, rfl, rfl, rfl, rfl, rfl, rfl, rfl, rfl, rfl, rfl, rfl, rfl, rfl, rfl, rfl, rfl, rfl, rfl, rfl, rfl, rfl, rfl, rfl, rfl, rfl, rfl, rfl, rfl, rfl, rfl, rfl, rfl, rfl, rfl, rfl, rfl, rfl, rfl, rfl, rfl, rfl, rfl, rfl, rfl, rfl, rfl, rfl, rfl, rfl, rfl, rfl, rfl⟩

/-- C3: `AddLoopConstraint` registers the row with the passed stabilization
flag and time constant, whose declared defaults (Constraints.h) are
`enable_stabilization = false` and `stabilization_param = 0.1`; with those
defaults the stored pair is `(false, 0.1)`, so stabilization is enabled only
when the caller explicitly requests it, and the returned value is the index
of the newly added row. -/
theorem C3_addLoopConstraint_defaults (cs : ConstraintSet)
    (idp ids : Nat) (Xp Xs : SpatialTransform) (ax : SpatialVec)
    (stab : Bool) (T : ℚ) (nm : String) :
    loopStabilizationDefault = false ∧
    loopTstabDefault = 1/10 ∧
    (cs.AddLoopConstraint idp ids Xp Xs ax stab T nm).1.baumgarteParameters
      = cs.baumgarteParameters ++ [(stab, T)] ∧
    (cs.AddLoopConstraint idp ids Xp Xs ax loopStabilizationDefault
        loopTstabDefault nm).1.baumgarteParameters
      = cs.baumgarteParameters ++ [(false, 1/10)] ∧
    (cs.AddLoopConstraint idp ids Xp Xs ax stab T nm).2 = cs.size :=
  ⟨rfl, rfl, rfl, rfl, rfl⟩

/-- One recorded registration call against a `ConstraintSet`. -/
inductive ConsCall where
  | contact (body_id : Nat) (pt nrm : Vector3) (nm : String) (acc : ℚ)
  | loop (idp ids : Nat) (Xp Xs : SpatialTransform) (ax : SpatialVec)
      (stab : Bool) (T : ℚ) (nm : String)
  | custom (cc : CustomConstraint) (idp ids : Nat)
      (Xp Xs : SpatialTransform) (stab : Bool) (T : ℚ) (nm : String)

/-- Replay a sequence of `AddXConstraint` calls against a registry. -/
def ConstraintSet.applyCalls (cs : ConstraintSet) :
    List ConsCall → ConstraintSet
  | [] => cs
  | .contact bid pt nrm nm acc :: rest =>
      ((cs.AddContactConstraint bid pt nrm nm acc).1).applyCalls rest
  | .loop idp ids Xp Xs ax st T nm :: rest =>
      ((cs.AddLoopConstraint idp ids Xp Xs ax st T nm).1).applyCalls rest
  | .custom cc idp ids Xp Xs st T nm :: rest =>
      ((cs.AddCustomConstraint cc idp ids Xp Xs st T nm).1).applyCalls rest

lemma ConstraintSet.applyCalls_bound : ∀ (calls : List ConsCall)
    (cs : ConstraintSet), (cs.applyCalls calls).bound = cs.bound
  | [], _ => rfl
  | .contact bid pt nrm nm acc :: rest, cs =>
      ConstraintSet.applyCalls_bound rest
        ((cs.AddContactConstraint bid pt nrm nm acc).1)
  | .loop idp ids Xp Xs ax st T nm :: rest, cs =>
      ConstraintSet.applyCalls_bound rest
        ((cs.AddLoopConstraint idp ids Xp Xs ax st T nm).1)
  | .custom cc idp ids Xp Xs st T nm :: rest, cs =>
      ConstraintSet.applyCalls_bound rest
        ((cs.AddCustomConstraint cc idp ids Xp Xs st T nm).1)

lemma ConstraintSet.Bind_success_bound (cs : ConstraintSet) (mdl : Model)
    (h : (cs.Bind mdl).2 = true) : (cs.Bind mdl).1.bound = true := by
  by_cases hb : cs.bound
  · simp [ConstraintSet.Bind, hb] at h
  · by_cases hc : (cs.body.all (fun i => decide (i < mdl.mBodies.length)) &&
        cs.body_p.all (fun i => decide (i < mdl.mBodies.length)) &&
        cs.body_s.all (fun i => decide (i < mdl.mBodies.length))) = true
    · simp [ConstraintSet.Bind, hb, hc]
    · simp [ConstraintSet.Bind, hb, hc] at h

lemma ConstraintSet.Bind_failure_bound (cs : ConstraintSet) (mdl : Model)
    (h : (cs.Bind mdl).2 = false) : (cs.Bind mdl).1.bound = cs.bound := by
  by_cases hb : cs.bound
  · simp [ConstraintSet.Bind, hb]
  · by_cases hc : (cs.body.all (fun i => decide (i < mdl.mBodies.length)) &&
        cs.body_p.all (fun i => decide (i < mdl.mBodies.length)) &&
        cs.body_s.all (fun i => decide (i < mdl.mBodies.length))) = true
    · simp [ConstraintSet.Bind, hb, hc] at h
    · simp [ConstraintSet.Bind, hb, hc]

/-- C7: a default-constructed `ConstraintSet` has `bound = false` and
`linear_solver = LinearSolverColPivHouseholderQR` (the configurable solver
the Direct strategy uses), registration calls never set `bound`, and `bound`
becomes true exactly when `Bind` succeeds. -/
theorem C7_defaultCtor_and_bound :
    ConstraintSet.init.bound = false ∧
    ConstraintSet.init.linear_solver
      = LinearSolver.LinearSolverColPivHouseholderQR ∧
    (∀ calls : List ConsCall,
      (ConstraintSet.init.applyCalls calls).bound = false) ∧
    (∀ (cs : ConstraintSet) (mdl : Model),
      (cs.Bind mdl).2 = true → (cs.Bind mdl).1.bound = true) ∧
    (∀ (cs : ConstraintSet) (mdl : Model),
      (cs.Bind mdl).2 = false → (cs.Bind mdl).1.bound = cs.bound) :=
  ⟨rfl, rfl,
   fun calls => ConstraintSet.applyCalls_bound calls ConstraintSet.init,
   ConstraintSet.Bind_success_bound,
   ConstraintSet.Bind_failure_bound⟩

/-- Witness for C7: binding a fresh registry to the fresh model succeeds and
sets the flag; an unbound registry with one registered row is still
unbound. -/
theorem C7_defaultCtor_and_bound_witness :
    ((ConstraintSet.init.applyCalls
        [ConsCall.contact 0 0 0 "c1" 0]).bound = false) ∧
    (ConstraintSet.init.Bind Model.Init).1.bound = true := by
  obtain ⟨h1, h2, h3, h4, h5⟩ := C7_defaultCtor_and_bound
  exact ⟨h3 [ConsCall.contact 0 0 0 "c1" 0],
         h4 ConstraintSet.init Model.Init rfl⟩

/-- All six per-row vectors stay in lock-step with the row tags. -/
def ConstraintSet.rowsAligned (cs : ConstraintSet) : Prop :=
  cs.err.length = cs.constraintType.length ∧
  cs.errd.length = cs.constraintType.length ∧
  cs.acceleration.length = cs.constraintType.length ∧
  cs.force.length = cs.constraintType.length ∧
  cs.impulse.length = cs.constraintType.length ∧
  cs.v_plus.length = cs.constraintType.length

lemma ConstraintSet.init_rowsAligned : ConstraintSet.init.rowsAligned :=
  ⟨rfl, rfl, rfl, rfl, rfl, rfl⟩

lemma ConstraintSet.applyCalls_rowsAligned : ∀ (calls : List ConsCall)
    (cs : ConstraintSet), cs.rowsAligned →
    (cs.applyCalls calls).rowsAligned
  | [], _, h => h
  | .contact bid pt nrm nm acc :: rest, cs, h => by
      refine ConstraintSet.applyCalls_rowsAligned rest _ ?_
      obtain ⟨h1, h2, h3, h4, h5, h6⟩ := h
      refine ⟨?_, ?_, ?_, ?_, ?_, ?_⟩ <;>
        simp [ConstraintSet.AddContactConstraint, h1, h2, h3, h4, h5, h6]
  | .loop idp ids Xp Xs ax st T nm :: rest, cs, h => by
      refine ConstraintSet.applyCalls_rowsAligned rest _ ?_
      obtain ⟨h1, h2, h3, h4, h5, h6⟩ := h
      refine ⟨?_, ?_, ?_, ?_, ?_, ?_⟩ <;>
        simp [ConstraintSet.AddLoopConstraint, h1, h2, h3, h4, h5, h6]
  | .custom cc idp ids Xp Xs st T nm :: rest, cs, h => by
      refine ConstraintSet.applyCalls_rowsAligned rest _ ?_
      obtain ⟨h1, h2, h3, h4, h5, h6⟩ := h
      refine ⟨?_, ?_, ?_, ?_, ?_, ?_⟩ <;>
        simp [ConstraintSet.AddCustomConstraint, h1, h2, h3, h4, h5, h6]

lemma ConstraintSet.Bind_preserves_rows (cs : ConstraintSet) (mdl : Model) :
    (cs.Bind mdl).1.err = cs.err ∧ (cs.Bind mdl).1.errd = cs.errd ∧
    (cs.Bind mdl).1.acceleration = cs.acceleration ∧
    (cs.Bind mdl).1.force = cs.force ∧
    (cs.Bind mdl).1.impulse = cs.impulse ∧
    (cs.Bind mdl).1.v_plus = cs.v_plus ∧
    (cs.Bind mdl).1.constraintType = cs.constraintType := by
  by_cases hb : cs.bound
  · simp [ConstraintSet.Bind, hb]
  · by_cases hc : (cs.body.all (fun i => decide (i < mdl.mBodies.length)) &&
        cs.body_p.all (fun i => decide (i < mdl.mBodies.length)) &&
        cs.body_s.all (fun i => decide (i < mdl.mBodies.length))) = true
    · simp [ConstraintSet.Bind, hb, hc]
    · simp [ConstraintSet.Bind, hb, hc]

/-- C6: after any sequence of registration calls replayed from the default
constructor followed by a successful `Bind`, the six per-row vectors all
have length equal to the total row count (row i in every vector was
appended by the same registration call), and `ConstraintSet::size` returns
that count, implemented as the length of `acceleration`. -/
theorem C6_perRow_alignment (calls : List ConsCall) (mdl : Model)
    (hbind : ((ConstraintSet.init.applyCalls calls).Bind mdl).2 = true) :
    (((ConstraintSet.init.applyCalls calls).Bind mdl).1.err.length
        = ((ConstraintSet.init.applyCalls calls).Bind mdl).1.constraintType.length) ∧
    (((ConstraintSet.init.applyCalls calls).Bind mdl).1.errd.length
        = ((ConstraintSet.init.applyCalls calls).Bind mdl).1.constraintType.length) ∧
    (((ConstraintSet.init.applyCalls calls).Bind mdl).1.acceleration.length
        = ((ConstraintSet.init.applyCalls calls).Bind mdl).1.constraintType.length) ∧
    (((ConstraintSet.init.applyCalls calls).Bind mdl).1.force.length
        = ((ConstraintSet.init.applyCalls calls).Bind mdl).1.constraintType.length) ∧
    (((ConstraintSet.init.applyCalls calls).Bind mdl).1.impulse.length
        = ((ConstraintSet.init.applyCalls calls).Bind mdl).1.constraintType.length) ∧
    (((ConstraintSet.init.applyCalls calls).Bind mdl).1.v_plus.length
        = ((ConstraintSet.init.applyCalls calls).Bind mdl).1.constraintType.length) ∧
    (((ConstraintSet.init.applyCalls calls).Bind mdl).1.size
        = ((ConstraintSet.init.applyCalls calls).Bind mdl).1.constraintType.length) ∧
    (((ConstraintSet.init.applyCalls calls).Bind mdl).1.size
        = ((ConstraintSet.init.applyCalls calls).Bind mdl).1.acceleration.length) := by
  obtain ⟨a1, a2, a3, a4, a5, a6⟩ :=
    ConstraintSet.applyCalls_rowsAligned calls ConstraintSet.init
      ConstraintSet.init_rowsAligned
  obtain ⟨p1, p2, p3, p4, p5, p6, p7⟩ :=
    ConstraintSet.Bind_preserves_rows (ConstraintSet.init.applyCalls calls) mdl
  refine ⟨?_, ?_, ?_, ?_, ?_, ?_, ?_, rfl⟩ <;>
    simp [ConstraintSet.size, p1, p2, p3, p4, p5, p6, p7, a1, a2, a3, a4, a5, a6]

/-- Witness for C6 with one contact row and one loop row bound against the
fresh model. -/
theorem C6_perRow_alignment_witness :
    ((ConstraintSet.init.applyCalls
        [ConsCall.contact 0 0 0 "c1" 0,
         ConsCall.loop 0 0 SpatialTransform.id SpatialTransform.id 0 false
           (1/10) "l1"]).Bind Model.Init).1.size
      = ((ConstraintSet.init.applyCalls
          [ConsCall.contact 0 0 0 "c1" 0,
           ConsCall.loop 0 0 SpatialTransform.id SpatialTransform.id 0 false
             (1/10) "l1"]).Bind Model.Init).1.constraintType.length := by
  obtain ⟨-, -, -, -, -, -, hsz, -⟩ :=
    C6_perRow_alignment
      [ConsCall.contact 0 0 0 "c1" 0,
       ConsCall.loop 0 0 SpatialTransform.id SpatialTransform.id 0 false
         (1/10) "l1"] Model.Init rfl
  exact hsz

/-- Modelled from the spec: `CalcConstraintsPositionError` (Constraints.cc
is not in src/).  Contact rows always report zero position error (also the
note on the declaration in Constraints.h); Loop and Custom rows report the
pose discrepancy between the two referenced frames, computed by the
out-of-scope kinematics and supplied here by the oracle `poseError`
(row index, model, generalized positions ↦ discrepancy). -/
def CalcConstraintsPositionError (poseError : Nat → Model → VectorNd → ℚ)
    (model : Model) (Q : VectorNd) (CS : ConstraintSet) : VectorNd :=
  CS.constraintType.enum.map fun p =>
    match p.2 with
    | .ContactConstraint => 0
    | _ => poseError p.1 model Q

/-- C4: `CalcConstraintsPositionError` produces one entry per constraint
row and writes zero at every row whose constraint type is
`ContactConstraint`, for every model, position vector and kinematics
oracle; only Loop/Custom rows can report a nonzero position error. -/
theorem C4_contactRows_zeroPositionError
    (poseError : Nat → Model → VectorNd → ℚ) (model : Model)
    (Q : VectorNd) (CS : ConstraintSet) :
    (CalcConstraintsPositionError poseError model Q CS).length
      = CS.constraintType.length ∧
    ∀ i (h : i < CS.constraintType.length),
      CS.constraintType[i] = ConstraintType.ContactConstraint →
      (CalcConstraintsPositionError poseError model Q CS)[i]? = some 0 := by
  constructor
  · simp [CalcConstraintsPositionError]
  · intro i h ht
    have hsome : CS.constraintType[i]? = some ConstraintType.ContactConstraint := by
      rw [List.getElem?_eq_getElem h, ht]
    simp [CalcConstraintsPositionError, List.enum, hsome]

/-- Witness for C4 on a registry with one contact row. -/
theorem C4_contactRows_zeroPositionError_witness :
    (CalcConstraintsPositionError (fun _ _ _ => 1) Model.Init []
        (ConstraintSet.init.AddContactConstraint 0 0 0 "c1" 0).1)[0]?
      = some 0 := by
  exact (C4_contactRows_zeroPositionError (fun _ _ _ => 1) Model.Init []
      (ConstraintSet.init.AddContactConstraint 0 0 0 "c1" 0).1).2 0
    (by decide) (by decide)

/-- Default value of the `tolerance` parameter of `CalcAssemblyQ`
(Constraints.h declares `double tolerance = 1.0e-12`). -/
def assemblyTolDefault : ℚ := 1/1000000000000

/-- Default value of the `max_iter` parameter of `CalcAssemblyQ`
(Constraints.h declares `unsigned int max_iter = 100`). -/
def assemblyMaxIterDefault : Nat := 100

/-- Modelled from the spec: the Gauss-Newton iteration loop of
`CalcAssemblyQ` (Constraints.cc is not in src/).  Each round applies one
linearized weighted least-squares update (the out-of-scope linear-algebra
solve, supplied as `step`) and returns successfully as soon as the
constraint position-error norm (`errNorm`) of the new iterate falls below
`tolerance`; once the iteration budget is exhausted it returns false
together with the last iterate. -/
def calcAssemblyQLoop (step : VectorNd → VectorNd) (errNorm : VectorNd → ℚ)
    (tolerance : ℚ) : Nat → VectorNd → Bool × VectorNd
  | 0, qcur => (false, qcur)
  | maxIter + 1, qcur =>
      if errNorm (step qcur) < tolerance then (true, step qcur)
      else calcAssemblyQLoop step errNorm tolerance maxIter (step qcur)

/-- Modelled from the spec: `CalcAssemblyQ` (declaration with the defaults
in Constraints.h; body in the missing Constraints.cc).  Iterates from
`QInit` at most `max_iter` times; the output `Q` receives the final
iterate whether or not the iteration converged. -/
def CalcAssemblyQ (step : VectorNd → VectorNd) (errNorm : VectorNd → ℚ)
    (QInit : VectorNd) (tolerance : ℚ) (max_iter : Nat) : Bool × VectorNd :=
  calcAssemblyQLoop step errNorm tolerance max_iter QInit

lemma calcAssemblyQLoop_true_iff (step : VectorNd → VectorNd)
    (errNorm : VectorNd → ℚ) (tol : ℚ) : ∀ (N : Nat) (q : VectorNd),
    ((calcAssemblyQLoop step errNorm tol N q).1 = true) ↔
      ∃ k < N, errNorm (step^[k + 1] q) < tol
  | 0, q => by simp [calcAssemblyQLoop]
  | N + 1, q => by
      by_cases hc : errNorm (step q) < tol
      · simp only [calcAssemblyQLoop, if_pos hc]
        constructor
        · intro _
          exact ⟨0, Nat.succ_pos N, by simpa using hc⟩
        · intro _
          trivial
      · simp only [calcAssemblyQLoop, if_neg hc]
        rw [calcAssemblyQLoop_true_iff step errNorm tol N (step q)]
        constructor
        · rintro ⟨k, hk, hlt⟩
          refine ⟨k + 1, by omega, ?_⟩
          rwa [Function.iterate_succ_apply]
        · rintro ⟨k, hk, hlt⟩
          match k with
          | 0 => exact absurd (by simpa using hlt) hc
          | k + 1 =>
            refine ⟨k, by omega, ?_⟩
            rwa [Function.iterate_succ_apply] at hlt

lemma calcAssemblyQLoop_false_out (step : VectorNd → VectorNd)
    (errNorm : VectorNd → ℚ) (tol : ℚ) : ∀ (N : Nat) (q : VectorNd),
    ((calcAssemblyQLoop step errNorm tol N q).1 = false) →
    (calcAssemblyQLoop step errNorm tol N q).2 = step^[N] q
  | 0, q, _ => by simp [calcAssemblyQLoop]
  | N + 1, q, h => by
      by_cases hc : errNorm (step q) < tol
      · simp [calcAssemblyQLoop, if_pos hc] at h
      · simp only [calcAssemblyQLoop, if_neg hc] at h ⊢
        rw [calcAssemblyQLoop_false_out step errNorm tol N (step q) h,
          Function.iterate_succ_apply]

/-- C5: `CalcAssemblyQ` returns true exactly when within `max_iter`
Gauss-Newton iterations the constraint position-error norm falls below
`tolerance` (whose declared defaults are `1e-12` and `100`); when it
returns false after exhausting `max_iter`, the last (partial) iterate is
still written into the output `Q`. -/
theorem C5_calcAssemblyQ (step : VectorNd → VectorNd)
    (errNorm : VectorNd → ℚ) (q0 : VectorNd) (tol : ℚ) (N : Nat) :
    assemblyTolDefault = 1/1000000000000 ∧
    assemblyMaxIterDefault = 100 ∧
    ((CalcAssemblyQ step errNorm q0 tol N).1 = true ↔
      ∃ k < N, errNorm (step^[k + 1] q0) < tol) ∧
    ((CalcAssemblyQ step errNorm q0 tol N).1 = false →
      (CalcAssemblyQ step errNorm q0 tol N).2 = step^[N] q0) :=
  ⟨rfl, rfl, calcAssemblyQLoop_true_iff step errNorm tol N q0,
   calcAssemblyQLoop_false_out step errNorm tol N q0⟩

/-- Witness for C5: an immediately-converging iteration returns true; a
never-converging one returns false with the last iterate written out. -/
theorem C5_calcAssemblyQ_witness :
    (CalcAssemblyQ (fun l => l) (fun _ => 0) [] 1 1).1 = true ∧
    (CalcAssemblyQ (fun l => l) (fun _ => 1) [] 1 2).2 = [] := by
  constructor
  · exact (C5_calcAssemblyQ (fun l => l) (fun _ => 0) [] 1 1).2.2.1.mpr
      ⟨0, Nat.zero_lt_one, by norm_num⟩
  · have h := (C5_calcAssemblyQ (fun l => l) (fun _ => 1) [] 1 2).2.2.2 rfl
    simpa [Function.iterate_succ_apply] using h

section KKTSolvers

open Matrix

variable {n : Type} {m : Type} {zdim : Type}
variable [Fintype n] [Fintype m] [Fintype zdim]
variable [DecidableEq n] [DecidableEq m] [DecidableEq zdim]

/-- An executable exact inverse over `ℚ` (`det⁻¹ • adjugate`); it agrees
with Mathlib's `Matrix.inv` and stands in for the dense decompositions of
the external linear-algebra boundary. -/
def matInv (M : Matrix n n ℚ) : Matrix n n ℚ :=
  M.det⁻¹ • M.adjugate

lemma matInv_eq_inv (M : Matrix n n ℚ) : matInv M = M⁻¹ := by
  rw [Matrix.inv_def, Ring.inverse_eq_inv]
  rfl

/-- The saddle-point (KKT) system displayed in Constraints.h:
`[H Gᵀ; G 0] (qddot, -λ) = (c, gamma)`, stated componentwise as
`H qddot - Gᵀ λ = c` and `G qddot = gamma`.  The multiplier `λ` is the
constraint force reported in `ConstraintSet::force`. -/
def isKKT (H : Matrix n n ℚ) (G : Matrix m n ℚ) (c : n → ℚ)
    (gamma : m → ℚ) (qdd : n → ℚ) (lam : m → ℚ) : Prop :=
  H.mulVec qdd - Gᵀ.mulVec lam = c ∧ G.mulVec qdd = gamma

/-- Modelled from the spec: the linear-system stage of
`ForwardDynamicsConstraintsDirect` (Constraints.cc is not in src/).  After
`CalcConstrainedSystemVariables` assembles `H`, `G`, `c = -C + Tau` and
`gamma` (identically for all three drivers), the Direct strategy assembles
the full `(n+m) × (n+m)` matrix `[H Gᵀ; G 0]`, solves it against
`(c, gamma)` with the selected dense solver — exact inversion here, over
`ℚ` in place of IEEE doubles — and reports `qddot` and the negated second
solution block as the constraint force `λ`. -/
def fdDirect (H : Matrix n n ℚ) (G : Matrix m n ℚ) (c : n → ℚ)
    (gamma : m → ℚ) : (n → ℚ) × (m → ℚ) :=
  let A := Matrix.fromBlocks H Gᵀ G 0
  let xv := (matInv A).mulVec (Sum.elim c gamma)
  (xv ∘ Sum.inl, -(xv ∘ Sum.inr))

/-- Modelled from the spec: the linear-system stage of
`ForwardDynamicsConstraintsRangeSpaceSparse` (Constraints.cc is not in
src/).  It solves first for the multiplier through the `m × m` range-space
system `(G H⁻¹ Gᵀ) λ = -(G H⁻¹ c - gamma)` and then recovers
`qddot = H⁻¹ (c + Gᵀ λ)`; the structure-preserving sparse factorization of
`H` is an evaluation strategy for `H⁻¹` and is exact here.  The multiplier
is reported in the sign convention of the saddle-point system displayed in
Constraints.h, the convention shared by all three drivers. -/
def fdRangeSpaceSparse (H : Matrix n n ℚ) (G : Matrix m n ℚ) (c : n → ℚ)
    (gamma : m → ℚ) : (n → ℚ) × (m → ℚ) :=
  let lam := (matInv (G * matInv H * Gᵀ)).mulVec
    (gamma - G.mulVec ((matInv H).mulVec c))
  let qdd := (matInv H).mulVec (c + Gᵀ.mulVec lam)
  (qdd, lam)

/-- Modelled from the spec: the linear-system stage of
`ForwardDynamicsConstraintsNullSpace` (Constraints.cc is not in src/).
Given the QR factorization `Gᵀ = [Y Z] (R; 0)` supplied by the external
linear-algebra boundary (its defining properties are hypotheses of the
agreement theorem), it solves `Rᵀ qddot_y = gamma`, then
`(Zᵀ H Z) qddot_z = Zᵀ c - Zᵀ H Y qddot_y`, forms
`qddot = Y qddot_y + Z qddot_z`, and recovers the multiplier from the
range-space residual through `R λ = Yᵀ (H qddot - c)`. -/
def fdNullSpace (H : Matrix n n ℚ) (G : Matrix m n ℚ) (c : n → ℚ)
    (gamma : m → ℚ) (Y : Matrix n m ℚ) (Z : Matrix n zdim ℚ)
    (R : Matrix m m ℚ) : (n → ℚ) × (m → ℚ) :=
  let qy := (matInv Rᵀ).mulVec gamma
  let qz := (matInv (Zᵀ * H * Z)).mulVec
    (Zᵀ.mulVec c - (Zᵀ * H * Y).mulVec qy)
  let qdd := Y.mulVec qy + Z.mulVec qz
  let lam := (matInv R).mulVec (Yᵀ.mulVec (H.mulVec qdd - c))
  (qdd, lam)

lemma kkt_unique (H : Matrix n n ℚ) (G : Matrix m n ℚ) (c : n → ℚ)
    (gamma : m → ℚ) (hH : IsUnit H.det) (hK : IsUnit (G * H⁻¹ * Gᵀ).det)
    (q1 q2 : n → ℚ) (l1 l2 : m → ℚ)
    (h1 : isKKT H G c gamma q1 l1) (h2 : isKKT H G c gamma q2 l2) :
    q1 = q2 ∧ l1 = l2 := by
  obtain ⟨h1a, h1b⟩ := h1
  obtain ⟨h2a, h2b⟩ := h2
  have hA : H.mulVec (q1 - q2) = Gᵀ.mulVec (l1 - l2) := by
    rw [Matrix.mulVec_sub, Matrix.mulVec_sub]
    exact sub_eq_sub_iff_sub_eq_sub.mp (h1a.trans h2a.symm)
  have hG0 : G.mulVec (q1 - q2) = 0 := by
    rw [Matrix.mulVec_sub, h1b, h2b, sub_self]
  have hq : q1 - q2 = H⁻¹.mulVec (Gᵀ.mulVec (l1 - l2)) := by
    rw [← hA, Matrix.mulVec_mulVec, Matrix.nonsing_inv_mul H hH,
      Matrix.one_mulVec]
  have hKe : (G * H⁻¹ * Gᵀ).mulVec (l1 - l2) = 0 := by
    rw [← Matrix.mulVec_mulVec, ← Matrix.mulVec_mulVec, ← hq, hG0]
  have he : l1 - l2 = 0 := by
    have hrec : (G * H⁻¹ * Gᵀ)⁻¹.mulVec
        ((G * H⁻¹ * Gᵀ).mulVec (l1 - l2)) = l1 - l2 := by
      rw [Matrix.mulVec_mulVec, Matrix.nonsing_inv_mul _ hK,
        Matrix.one_mulVec]
    rw [hKe, Matrix.mulVec_zero] at hrec
    exact hrec.symm
  have hd : q1 - q2 = 0 := by
    rw [hq, he, Matrix.mulVec_zero, Matrix.mulVec_zero]
  exact ⟨sub_eq_zero.mp hd, sub_eq_zero.mp he⟩

lemma fdRangeSpaceSparse_isKKT (H : Matrix n n ℚ) (G : Matrix m n ℚ)
    (c : n → ℚ) (gamma : m → ℚ) (hH : IsUnit H.det)
    (hK : IsUnit (G * H⁻¹ * Gᵀ).det) :
    isKKT H G c gamma (fdRangeSpaceSparse H G c gamma).1
      (fdRangeSpaceSparse H G c gamma).2 := by
  unfold fdRangeSpaceSparse isKKT
  simp only [matInv_eq_inv]
  set lam := (G * H⁻¹ * Gᵀ)⁻¹.mulVec (gamma - G.mulVec (H⁻¹.mulVec c))
    with hlam
  have hKlam : (G * H⁻¹ * Gᵀ).mulVec lam
      = gamma - G.mulVec (H⁻¹.mulVec c) := by
    rw [hlam, Matrix.mulVec_mulVec, Matrix.mul_nonsing_inv _ hK,
      Matrix.one_mulVec]
  constructor
  · rw [Matrix.mulVec_mulVec, Matrix.mul_nonsing_inv H hH,
      Matrix.one_mulVec]
    exact add_sub_cancel_right c (Gᵀ.mulVec lam)
  · have hsplit : G.mulVec (H⁻¹.mulVec (c + Gᵀ.mulVec lam))
        = G.mulVec (H⁻¹.mulVec c) + (G * H⁻¹ * Gᵀ).mulVec lam := by
      simp only [Matrix.mulVec_add, Matrix.mulVec_mulVec,
        ← Matrix.mul_assoc]
    rw [hsplit, hKlam]
    abel

lemma kkt_block_det_ne_zero (H : Matrix n n ℚ) (G : Matrix m n ℚ)
    (hH : IsUnit H.det) (hK : IsUnit (G * H⁻¹ * Gᵀ).det) :
    (Matrix.fromBlocks H Gᵀ G (0 : Matrix m m ℚ)).det ≠ 0 := by
  intro hdet
  obtain ⟨vv, hv0, hvz⟩ := Matrix.exists_mulVec_eq_zero_iff.mpr hdet
  rw [Matrix.fromBlocks_mulVec] at hvz
  have h1 : H.mulVec (vv ∘ Sum.inl) + Gᵀ.mulVec (vv ∘ Sum.inr) = 0 := by
    funext i
    exact congrFun hvz (Sum.inl i)
  have h2 : G.mulVec (vv ∘ Sum.inl) = 0 := by
    funext i
    have hcomp := congrFun hvz (Sum.inr i)
    simpa [Matrix.zero_mulVec] using hcomp
  have hq : vv ∘ Sum.inl = H⁻¹.mulVec (Gᵀ.mulVec (-(vv ∘ Sum.inr))) := by
    have hA : H.mulVec (vv ∘ Sum.inl) = Gᵀ.mulVec (-(vv ∘ Sum.inr)) := by
      rw [Matrix.mulVec_neg]
      exact eq_neg_of_add_eq_zero_left h1
    rw [← hA, Matrix.mulVec_mulVec, Matrix.nonsing_inv_mul H hH,
      Matrix.one_mulVec]
  have hKe : (G * H⁻¹ * Gᵀ).mulVec (-(vv ∘ Sum.inr)) = 0 := by
    rw [← Matrix.mulVec_mulVec, ← Matrix.mulVec_mulVec, ← hq, h2]
  have he : -(vv ∘ Sum.inr) = 0 := by
    have hrec : (G * H⁻¹ * Gᵀ)⁻¹.mulVec
        ((G * H⁻¹ * Gᵀ).mulVec (-(vv ∘ Sum.inr))) = -(vv ∘ Sum.inr) := by
      rw [Matrix.mulVec_mulVec, Matrix.nonsing_inv_mul _ hK,
        Matrix.one_mulVec]
    rw [hKe, Matrix.mulVec_zero] at hrec
    exact hrec.symm
  have hqz : vv ∘ Sum.inl = 0 := by
    rw [hq, he, Matrix.mulVec_zero, Matrix.mulVec_zero]
  apply hv0
  funext s
  cases s with
  | inl i => exact congrFun hqz i
  | inr i =>
      have hcomp := congrFun he i
      simpa using hcomp

lemma fdDirect_isKKT (H : Matrix n n ℚ) (G : Matrix m n ℚ) (c : n → ℚ)
    (gamma : m → ℚ) (hH : IsUnit H.det)
    (hK : IsUnit (G * H⁻¹ * Gᵀ).det) :
    isKKT H G c gamma (fdDirect H G c gamma).1 (fdDirect H G c gamma).2 := by
  have hU : IsUnit (Matrix.fromBlocks H Gᵀ G (0 : Matrix m m ℚ)).det :=
    isUnit_iff_ne_zero.mpr (kkt_block_det_ne_zero H G hH hK)
  unfold fdDirect isKKT
  simp only [matInv_eq_inv]
  have hAx : (Matrix.fromBlocks H Gᵀ G (0 : Matrix m m ℚ)).mulVec
      ((Matrix.fromBlocks H Gᵀ G (0 : Matrix m m ℚ))⁻¹.mulVec
        (Sum.elim c gamma)) = Sum.elim c gamma := by
    rw [Matrix.mulVec_mulVec, Matrix.mul_nonsing_inv _ hU,
      Matrix.one_mulVec]
  rw [Matrix.fromBlocks_mulVec] at hAx
  constructor
  · rw [Matrix.mulVec_neg, sub_neg_eq_add]
    funext i
    exact congrFun hAx (Sum.inl i)
  · funext i
    have hcomp := congrFun hAx (Sum.inr i)
    simpa [Matrix.zero_mulVec] using hcomp

lemma fdNullSpace_isKKT (H : Matrix n n ℚ) (G : Matrix m n ℚ) (c : n → ℚ)
    (gamma : m → ℚ) (Y : Matrix n m ℚ) (Z : Matrix n zdim ℚ)
    (R : Matrix m m ℚ) (hYtY : Yᵀ * Y = 1) (hYZ : Y * Yᵀ + Z * Zᵀ = 1)
    (hGZ : G * Z = 0) (hGT : Gᵀ = Y * R) (hR : IsUnit R.det)
    (hZHZ : IsUnit (Zᵀ * H * Z).det) :
    isKKT H G c gamma (fdNullSpace H G c gamma Y Z R).1
      (fdNullSpace H G c gamma Y Z R).2 := by
  have hRT : IsUnit Rᵀ.det := by rwa [Matrix.det_transpose]
  have hGeq : G = Rᵀ * Yᵀ := by
    have hcongr := congrArg Matrix.transpose hGT
    rwa [Matrix.transpose_transpose, Matrix.transpose_mul] at hcongr
  have hGY : G * Y = Rᵀ := by
    rw [hGeq, Matrix.mul_assoc, hYtY, Matrix.mul_one]
  unfold fdNullSpace isKKT
  simp only [matInv_eq_inv]
  set qy := (Rᵀ)⁻¹.mulVec gamma with hqy
  set qz := (Zᵀ * H * Z)⁻¹.mulVec
    (Zᵀ.mulVec c - (Zᵀ * H * Y).mulVec qy) with hqz
  set qdd := Y.mulVec qy + Z.mulVec qz with hqdd
  clear_value qy qz qdd
  have hKz : (Zᵀ * H * Z).mulVec qz
      = Zᵀ.mulVec c - (Zᵀ * H * Y).mulVec qy := by
    rw [hqz, Matrix.mulVec_mulVec, Matrix.mul_nonsing_inv _ hZHZ,
      Matrix.one_mulVec]
  have hZr : Zᵀ.mulVec (H.mulVec qdd - c) = 0 := by
    have hexp : Zᵀ.mulVec (H.mulVec qdd - c)
        = (Zᵀ * H * Y).mulVec qy + (Zᵀ * H * Z).mulVec qz
            - Zᵀ.mulVec c := by
      rw [hqdd]
      simp only [Matrix.mulVec_sub, Matrix.mulVec_add,
        Matrix.mulVec_mulVec, ← Matrix.mul_assoc]
    rw [hexp, hKz]
    abel
  have hZZr : (Z * Zᵀ).mulVec (H.mulVec qdd - c) = 0 := by
    rw [← Matrix.mulVec_mulVec, hZr, Matrix.mulVec_zero]
  have hYYr : (Y * Yᵀ).mulVec (H.mulVec qdd - c) = H.mulVec qdd - c := by
    have hid : (Y * Yᵀ).mulVec (H.mulVec qdd - c)
        + (Z * Zᵀ).mulVec (H.mulVec qdd - c) = H.mulVec qdd - c := by
      rw [← Matrix.add_mulVec, hYZ, Matrix.one_mulVec]
    rw [hZZr, add_zero] at hid
    exact hid
  constructor
  · have hGl : Gᵀ.mulVec ((R⁻¹).mulVec
        (Yᵀ.mulVec (H.mulVec qdd - c))) = H.mulVec qdd - c := by
      rw [hGT, Matrix.mulVec_mulVec, Matrix.mul_assoc,
        Matrix.mul_nonsing_inv _ hR, Matrix.mul_one,
        Matrix.mulVec_mulVec, hYYr]
    rw [hGl]
    exact sub_sub_cancel (H.mulVec qdd) c
  · have hstep : G.mulVec qdd = (G * Y).mulVec qy + (G * Z).mulVec qz := by
      rw [hqdd]
      simp only [Matrix.mulVec_add, Matrix.mulVec_mulVec]
    rw [hstep, hGY, hGZ, Matrix.zero_mulVec, add_zero, hqy,
      Matrix.mulVec_mulVec, Matrix.mul_nonsing_inv _ hRT,
      Matrix.one_mulVec]

/-- C1: on identical inputs `(H, G, c, gamma)` assembled by
`CalcConstrainedSystemVariables` from the same model, state, torques and
external forces, the three forward-dynamics strategies Direct,
RangeSpaceSparse and NullSpace produce identical joint accelerations and
identical constraint-force vectors, provided the constraint set is
well-conditioned and non-redundant (in exact arithmetic: `H` invertible and
`G H⁻¹ Gᵀ` invertible) and the null-space method is fed an orthonormal QR
factorization `Gᵀ = [Y Z] (R; 0)`.  Exact equality implies agreement
within the spec's `1e-6` relative tolerance. -/
theorem C1_forwardDynamics_agreement (H : Matrix n n ℚ) (G : Matrix m n ℚ)
    (c : n → ℚ) (gamma : m → ℚ) (Y : Matrix n m ℚ) (Z : Matrix n zdim ℚ)
    (R : Matrix m m ℚ) (hH : IsUnit H.det)
    (hK : IsUnit (G * H⁻¹ * Gᵀ).det) (hYtY : Yᵀ * Y = 1)
    (hYZ : Y * Yᵀ + Z * Zᵀ = 1) (hGZ : G * Z = 0) (hGT : Gᵀ = Y * R)
    (hR : IsUnit R.det) (hZHZ : IsUnit (Zᵀ * H * Z).det) :
    fdDirect H G c gamma = fdRangeSpaceSparse H G c gamma ∧
    fdNullSpace H G c gamma Y Z R = fdRangeSpaceSparse H G c gamma := by
  have hdir := fdDirect_isKKT H G c gamma hH hK
  have hrs := fdRangeSpaceSparse_isKKT H G c gamma hH hK
  have hns := fdNullSpace_isKKT H G c gamma Y Z R hYtY hYZ hGZ hGT hR hZHZ
  constructor
  · obtain ⟨hq, hl⟩ := kkt_unique H G c gamma hH hK _ _ _ _ hdir hrs
    exact Prod.ext hq hl
  · obtain ⟨hq, hl⟩ := kkt_unique H G c gamma hH hK _ _ _ _ hns hrs
    exact Prod.ext hq hl

/-- Witness for C1 on a two-DOF system with a single constraint row. -/
theorem C1_forwardDynamics_agreement_witness :
    fdDirect (1 : Matrix (Fin 2) (Fin 2) ℚ)
        (!![1, 0] : Matrix (Fin 1) (Fin 2) ℚ) ![1, 2] ![3]
      = fdRangeSpaceSparse (1 : Matrix (Fin 2) (Fin 2) ℚ)
        (!![1, 0] : Matrix (Fin 1) (Fin 2) ℚ) ![1, 2] ![3] ∧
    fdNullSpace (1 : Matrix (Fin 2) (Fin 2) ℚ)
        (!![1, 0] : Matrix (Fin 1) (Fin 2) ℚ) ![1, 2] ![3]
        (!![1; 0] : Matrix (Fin 2) (Fin 1) ℚ)
        (!![0; 1] : Matrix (Fin 2) (Fin 1) ℚ)
        (!![1] : Matrix (Fin 1) (Fin 1) ℚ)
      = fdRangeSpaceSparse (1 : Matrix (Fin 2) (Fin 2) ℚ)
        (!![1, 0] : Matrix (Fin 1) (Fin 2) ℚ) ![1, 2] ![3] := by
  apply C1_forwardDynamics_agreement
  · simp
  · have h1 : (!![1, 0] : Matrix (Fin 1) (Fin 2) ℚ)
        * (1 : Matrix (Fin 2) (Fin 2) ℚ)⁻¹
        * (!![1, 0] : Matrix (Fin 1) (Fin 2) ℚ)ᵀ = !![1] := by
      rw [inv_one, Matrix.mul_one]
      ext i j
      fin_cases i
      fin_cases j
      simp [Matrix.mul_apply, Fin.sum_univ_two, Matrix.transpose_apply, Matrix.vecHead, Matrix.vecTail]
    rw [h1, Matrix.det_fin_one_of]
    exact isUnit_one
  · ext i j
    fin_cases i
    fin_cases j
    simp [Matrix.mul_apply, Fin.sum_univ_two, Matrix.one_apply, Matrix.transpose_apply, Matrix.vecHead, Matrix.vecTail]
  · ext i j
    fin_cases i <;> fin_cases j <;>
      simp [Matrix.mul_apply, Fin.sum_univ_one, Matrix.one_apply, Matrix.transpose_apply, Matrix.vecHead, Matrix.vecTail]
  · ext i j
    fin_cases i
    fin_cases j
    simp [Matrix.mul_apply, Fin.sum_univ_two, Matrix.transpose_apply, Matrix.vecHead, Matrix.vecTail]
  · ext i j
    fin_cases i <;> fin_cases j <;>
      simp [Matrix.mul_apply, Fin.sum_univ_one, Matrix.transpose_apply, Matrix.vecHead, Matrix.vecTail]
  · rw [Matrix.det_fin_one_of]
    exact isUnit_one
  · have h2 : (!![0; 1] : Matrix (Fin 2) (Fin 1) ℚ)ᵀ
        * (1 : Matrix (Fin 2) (Fin 2) ℚ)
        * (!![0; 1] : Matrix (Fin 2) (Fin 1) ℚ) = !![1] := by
      rw [Matrix.mul_one]
      ext i j
      fin_cases i
      fin_cases j
      simp [Matrix.mul_apply, Fin.sum_univ_two, Matrix.transpose_apply, Matrix.vecHead, Matrix.vecTail]
    rw [h2, Matrix.det_fin_one_of]
    exact isUnit_one

end KKTSolvers

end RigidBodyDynamics